import Mathlib

/-!
Verification of the AI phone-assistant repository.

The repository bridges a Twilio media stream to a speech recognizer, a text
generator (DeepSeek) and a speech synthesizer (Sarvam TTS).  Three JavaScript
files carry the logic relevant to the claims:

* `src/unnamed/part_000` ("s.js"): the real-time bridge with the per-call
  session state (`inFlight`, `ignoreUntil`), `handleFinalTranscript`, the
  mu-law decoder, the 8k/16k resamplers and one copy of the language
  resolution pipeline (namespace `S` below).
* `src/flow.js`: the record/playback webhook flow with a second, textually
  identical copy of the language resolution pipeline (namespace `Flow`).
* `src/final4.js`: the streaming flow whose resolver additionally applies a
  configurable language-lock strictness policy and a module-level
  `lastConfirmedLang` (namespace `Final4`).

The embedding is shallow: JavaScript strings are modelled as Lean `String` /
`List Char` (JS is UTF-16, the model is by Unicode codepoint; the two only
differ on astral codepoints and lone surrogates, which cannot appear in the
string literals used by the claims), audio buffers as `List ℤ` of samples,
machine integers as `ℤ`/`ℕ` with explicit wrapping where the code stores into
an `Int16Array`, and external collaborators (franc, fetch, Sarvam, Twilio) as
explicit oracle parameters.
-/

namespace AiAssist

/-! ### JS string semantics helpers

These model the pieces of JavaScript string/regexp semantics that the source
uses: ASCII case folding (`String.prototype.toLowerCase` restricted to the
ASCII letters actually exercised), `\b`-anchored word alternation regexps with
the `i` flag, character-class containment tests, and `String.prototype.trim`.
-/

/-- ASCII lower-casing of one character (`toLowerCase` on the ASCII range). -/
def jsLowerChar (c : Char) : Char :=
  if c.toNat < 91 && 64 < c.toNat then Char.ofNat (c.toNat + 32) else c

/-- ASCII lower-casing of a character list. -/
def jsLower (l : List Char) : List Char := l.map jsLowerChar

/-- JS regexp `\w` (word character): `[A-Za-z0-9_]`. -/
def isJsWordChar (c : Char) : Bool :=
  (65 ≤ c.toNat && c.toNat ≤ 90) || (97 ≤ c.toNat && c.toNat ≤ 122) ||
  (48 ≤ c.toNat && c.toNat ≤ 57) || c == '_'

/-- Whitespace removed by `String.prototype.trim` (ASCII part). -/
def jsIsSpace (c : Char) : Bool :=
  c == ' ' || c == '\t' || c == '\n' || c == '\r' || c.toNat == 11 || c.toNat == 12

/-- `String.prototype.trim`. -/
def jsTrim (l : List Char) : List Char :=
  ((l.dropWhile jsIsSpace).reverse.dropWhile jsIsSpace).reverse

/-- `\b` condition to the left of a match: start of string or a non-word
character immediately before. -/
def jsBoundaryBefore : Option Char → Bool
  | none => true
  | some c => !isJsWordChar c

/-- The word `w` occurs at the head of `l` followed by a `\b` boundary. -/
def jsWordHere (w : List Char) (l : List Char) : Bool :=
  w.isPrefixOf l &&
    (match l.drop w.length with
     | [] => true
     | c :: _ => !isJsWordChar c)

/-- Scan `l` for an occurrence of `w` delimited by `\b` on both sides;
`prev` is the character preceding the current position. -/
def jsWordScan (w : List Char) : Option Char → List Char → Bool
  | prev, [] => jsBoundaryBefore prev && jsWordHere w []
  | prev, c :: t =>
    (jsBoundaryBefore prev && jsWordHere w (c :: t)) || jsWordScan w (some c) t

/-- Case-insensitive test of a regexp `\b(w1|w2|...)\b` (all alternatives are
made of word characters) against a string, as `RegExp.prototype.test`. -/
def jsTestWords (words : List String) (s : String) : Bool :=
  let l := jsLower s.toList
  words.any fun w => jsWordScan (jsLower w.toList) none l

/-- Character-class containment test `/[\u{lo}-\u{hi}]/.test(s)` for a BMP
codepoint range (no surrogate issues arise for the ranges used). -/
def containsCodeInRange (lo hi : ℕ) (s : String) : Bool :=
  s.toList.any fun c => decide (lo ≤ c.toNat) && decide (c.toNat ≤ hi)

/-- `startsWith` on character lists (JS `String.prototype.startsWith`). -/
def jsStartsWith (p : List Char) (l : List Char) : Bool := p.isPrefixOf l

/-! ### Language resolution pipeline, copy from `src/flow.js` (lines 86-141) -/

namespace Flow

/-- `normalizeLangCode` from `src/flow.js` lines 86-101. `!code` is modelled
by the empty string (the only falsy `String` value). -/
def normalizeLangCode (code : String) : String :=
  if code == "" then "unknown"
  else
    let lc := jsLower code.toList
    if jsStartsWith "gu".toList lc then "gu-IN"
    else if jsStartsWith "hi".toList lc then "hi-IN"
    else if jsStartsWith "en".toList lc then "en-IN"
    else if jsStartsWith "bn".toList lc then "bn-IN"
    else if jsStartsWith "kn".toList lc then "kn-IN"
    else if jsStartsWith "ml".toList lc then "ml-IN"
    else if jsStartsWith "mr".toList lc then "mr-IN"
    else if jsStartsWith "od".toList lc then "od-IN"
    else if jsStartsWith "pa".toList lc then "pa-IN"
    else if jsStartsWith "ta".toList lc then "ta-IN"
    else if jsStartsWith "te".toList lc then "te-IN"
    else code

/-- `detectLanguageLocal` from `src/flow.js` lines 103-114.  The external
`franc` statistical classifier (called with `minLength: 3`) is passed in as
an oracle `francFn`.  JS `.length` counts UTF-16 units; the model counts
codepoints (they agree on all BMP text). -/
def detectLanguageLocal (francFn : String → String) (text : String) : String :=
  if text == "" || (jsTrim text.toList).length == 0 then "en-IN"
  else if containsCodeInRange 0xA80 0xAFF text then "gu-IN"
  else if containsCodeInRange 0x900 0x97F text then "hi-IN"
  else if (jsTrim text.toList).length < 6 then "en-IN"
  else
    let francLang := francFn text
    if francLang == "guj" then "gu-IN"
    else if francLang == "hin" then "hi-IN"
    else if francLang == "eng" then "en-IN"
    else "en-IN"

/-- Word list of `romanGujaratiRe` (`src/flow.js` line 117). -/
def romanGujaratiWords : List String :=
  ["kem", "cho", "maja", "majama", "tame", "tamne", "shu", "su", "mane", "hu",
   "maru", "bhai", "barabar", "krupaya", "dhanyavaad"]

/-- Word list of `romanHindiRe` (`src/flow.js` line 118). -/
def romanHindiWords : List String :=
  ["aap", "aapka", "kaise", "naam", "namaste", "shukriya", "haan", "nahi",
   "kya", "kyu", "kyun", "theek", "thik", "bahut", "kripya", "dhanyavad"]

/-- `resolveFinalLang` from `src/flow.js` lines 120-141.  The two early
`return`s inside the `lang === "en-IN"` block are flattened into guarded
ifs; the trailing `return lang || "en-IN"` is the final empty-string guard. -/
def resolveFinalLang (francFn : String → String) (sttLangCode transcript : String) : String :=
  let scriptGu := containsCodeInRange 0xA80 0xAFF transcript
  let scriptHi := containsCodeInRange 0x900 0x97F transcript
  if scriptGu then "gu-IN"
  else if scriptHi then "hi-IN"
  else
    let lang := normalizeLangCode sttLangCode
    if lang == "en-IN" && jsTestWords romanGujaratiWords transcript then "gu-IN"
    else if lang == "en-IN" && jsTestWords romanHindiWords transcript then "hi-IN"
    else
      let lang2 := if lang == "" || lang == "unknown"
                   then detectLanguageLocal francFn transcript else lang
      if lang2 == "" then "en-IN" else lang2

end Flow

/-! ### Language resolution pipeline, copy from `src/unnamed/part_000`
(lines 82-128).  The source is textually identical to the `src/flow.js` copy;
the duplication is kept here on purpose so that the extensional-equality
claim compares two independently transcribed definitions. -/

namespace S

/-- `normalizeLangCode` from `src/unnamed/part_000` lines 82-97. -/
def normalizeLangCode (code : String) : String :=
  if code == "" then "unknown"
  else
    let lc := jsLower code.toList
    if jsStartsWith "gu".toList lc then "gu-IN"
    else if jsStartsWith "hi".toList lc then "hi-IN"
    else if jsStartsWith "en".toList lc then "en-IN"
    else if jsStartsWith "bn".toList lc then "bn-IN"
    else if jsStartsWith "kn".toList lc then "kn-IN"
    else if jsStartsWith "ml".toList lc then "ml-IN"
    else if jsStartsWith "mr".toList lc then "mr-IN"
    else if jsStartsWith "od".toList lc then "od-IN"
    else if jsStartsWith "pa".toList lc then "pa-IN"
    else if jsStartsWith "ta".toList lc then "ta-IN"
    else if jsStartsWith "te".toList lc then "te-IN"
    else code

/-- `detectLanguageLocal` from `src/unnamed/part_000` lines 99-109. -/
def detectLanguageLocal (francFn : String → String) (text : String) : String :=
  if text == "" || (jsTrim text.toList).length == 0 then "en-IN"
  else if containsCodeInRange 0xA80 0xAFF text then "gu-IN"
  else if containsCodeInRange 0x900 0x97F text then "hi-IN"
  else if (jsTrim text.toList).length < 6 then "en-IN"
  else
    let francLang := francFn text
    if francLang == "guj" then "gu-IN"
    else if francLang == "hin" then "hi-IN"
    else if francLang == "eng" then "en-IN"
    else "en-IN"

/-- Word list of `romanGujaratiRe` (`src/unnamed/part_000` line 111). -/
def romanGujaratiWords : List String :=
  ["kem", "cho", "maja", "majama", "tame", "tamne", "shu", "su", "mane", "hu",
   "maru", "bhai", "barabar", "krupaya", "dhanyavaad"]

/-- Word list of `romanHindiRe` (`src/unnamed/part_000` line 112). -/
def romanHindiWords : List String :=
  ["aap", "aapka", "kaise", "naam", "namaste", "shukriya", "haan", "nahi",
   "kya", "kyu", "kyun", "theek", "thik", "bahut", "kripya", "dhanyavad"]

/-- `resolveFinalLang` from `src/unnamed/part_000` lines 114-128. -/
def resolveFinalLang (francFn : String → String) (sttLangCode transcript : String) : String :=
  let scriptGu := containsCodeInRange 0xA80 0xAFF transcript
  let scriptHi := containsCodeInRange 0x900 0x97F transcript
  if scriptGu then "gu-IN"
  else if scriptHi then "hi-IN"
  else
    let lang := normalizeLangCode sttLangCode
    if lang == "en-IN" && jsTestWords romanGujaratiWords transcript then "gu-IN"
    else if lang == "en-IN" && jsTestWords romanHindiWords transcript then "hi-IN"
    else
      let lang2 := if lang == "" || lang == "unknown"
                   then detectLanguageLocal francFn transcript else lang
      if lang2 == "" then "en-IN" else lang2

end S

/-! ### Language resolution pipeline from `src/final4.js` (lines 86-143),
with the lock-strictness policy and the module-level `lastConfirmedLang`. -/

namespace Final4

/-- `normalizeLangCode` from `src/final4.js` lines 86-101 (this copy also
maps the `or` prefix to `od-IN`). -/
def normalizeLangCode (code : String) : String :=
  if code == "" then "unknown"
  else
    let lc := jsLower code.toList
    if jsStartsWith "gu".toList lc then "gu-IN"
    else if jsStartsWith "hi".toList lc then "hi-IN"
    else if jsStartsWith "en".toList lc then "en-IN"
    else if jsStartsWith "bn".toList lc then "bn-IN"
    else if jsStartsWith "kn".toList lc then "kn-IN"
    else if jsStartsWith "ml".toList lc then "ml-IN"
    else if jsStartsWith "mr".toList lc then "mr-IN"
    else if jsStartsWith "or".toList lc || jsStartsWith "od".toList lc then "od-IN"
    else if jsStartsWith "pa".toList lc then "pa-IN"
    else if jsStartsWith "ta".toList lc then "ta-IN"
    else if jsStartsWith "te".toList lc then "te-IN"
    else code

/-- `detectLanguageLocal` from `src/final4.js` lines 102-113 (this copy also
recognizes franc's `pan`). -/
def detectLanguageLocal (francFn : String → String) (text : String) : String :=
  if text == "" || (jsTrim text.toList).length == 0 then "en-IN"
  else if containsCodeInRange 0xA80 0xAFF text then "gu-IN"
  else if containsCodeInRange 0x900 0x97F text then "hi-IN"
  else if (jsTrim text.toList).length < 6 then "en-IN"
  else
    let francLang := francFn text
    if francLang == "guj" then "gu-IN"
    else if francLang == "hin" then "hi-IN"
    else if francLang == "eng" then "en-IN"
    else if francLang == "pan" then "pa-IN"
    else "en-IN"

/-- Word list of `romanGujaratiRe` (`src/final4.js` line 114). -/
def romanGujaratiWords : List String :=
  ["kem", "cho", "maja", "majama", "tame", "tamne", "shu", "su", "mane", "hu",
   "maru", "bhai", "barabar", "krupaya", "dhanyavaad"]

/-- Word list of `romanHindiRe` (`src/final4.js` line 115). -/
def romanHindiWords : List String :=
  ["aap", "aapka", "kaise", "naam", "namaste", "shukriya", "haan", "nahi",
   "kya", "kyu", "kyun", "theek", "thik", "bahut", "kripya", "dhanyavad"]

/-- The freshly resolved language: the value of the local variable `lang` in
`src/final4.js` `resolveFinalLang` (lines 120-130) just before the lock
block.  Unlike the `flow.js` copy, all steps are assignments (not early
returns): with mixed scripts Devanagari overwrites Gujarati, and both
romanized-cue tests run in sequence. -/
def freshLang (francFn : String → String) (sttLangCode transcript : String) : String :=
  let scriptGu := containsCodeInRange 0xA80 0xAFF transcript
  let scriptHi := containsCodeInRange 0x900 0x97F transcript
  let lang := normalizeLangCode sttLangCode
  let lang := if scriptGu then "gu-IN" else lang
  let lang := if scriptHi then "hi-IN" else lang
  let lang :=
    if lang == "en-IN" then
      let lang := if jsTestWords romanGujaratiWords transcript then "gu-IN" else lang
      if jsTestWords romanHindiWords transcript then "hi-IN" else lang
    else lang
  if lang == "" || lang == "unknown" then detectLanguageLocal francFn transcript
  else lang

/-- `resolveFinalLang` from `src/final4.js` lines 119-143.  `strict` models
`LANG_LOCK_STRICTNESS` (an integer parsed from the environment, default 1)
and `lastConfirmed` the module variable `lastConfirmedLang` (initial value
`"en-IN"`).  The function both returns and stores `lastConfirmedLang`; the
single returned string is that common value. -/
def resolveFinalLang (strict : ℤ) (lastConfirmed : String)
    (francFn : String → String) (sttLangCode transcript : String) : String :=
  let lang := freshLang francFn sttLangCode transcript
  if strict == 0 then lang
  else if strict == 1 then lang
  else if 2 ≤ strict then
    (if lang == normalizeLangCode sttLangCode then lang else lastConfirmed)
  else lastConfirmed

end Final4

/-! ### Codec layer: mu-law decoding and 8k/16k resampling
(`src/unnamed/part_000` lines 131-146 and 333-363). -/

/-- Conversion performed by storing an integer into a JS `Int16Array`
(wrap to the signed 16-bit range). -/
def toInt16 (x : ℤ) : ℤ := (x + 32768) % 65536 - 32768

/-- One sample of the mu-law decoder, the loop body of `muLawToPcm16Buffer`
(`src/unnamed/part_000` lines 134-142).  The input is one byte (0-255). -/
def muLawDecodeSample (b : ℕ) : ℤ :=
  let u := (b &&& 0xff) ^^^ 0xff
  let sign := u &&& 0x80
  let exponent := (u >>> 4) &&& 0x07
  let mantissa := u &&& 0x0f
  let sample : ℤ := (((mantissa <<< 3) + 0x84) <<< exponent : ℕ)
  let sample := sample - 0x84
  let sample := if sign ≠ 0 then -sample else sample
  if 32767 < sample then 32767 else if sample < -32768 then -32768 else sample

/-- `muLawToPcm16Buffer` (`src/unnamed/part_000` lines 131-146), with the
output buffer represented as its list of 16-bit samples. -/
def muLawToPcm16Buffer (mu : List ℕ) : List ℤ := mu.map muLawDecodeSample

/-- `resample8kTo16k` (`src/unnamed/part_000` lines 333-349): each input
sample is emitted followed by `Math.floor((s1 + s2) / 2)` with its successor;
the loop stops one short of the end and the final two slots repeat the last
sample.  `Math.floor` on the halved sum is floor division (`Int.fdiv`), and
the `Int16Array` store is `toInt16`. -/
def resample8kTo16k : List ℤ → List ℤ
  | [] => []
  | [a] => [a, a]
  | a :: b :: t => a :: toInt16 ((a + b).fdiv 2) :: resample8kTo16k (b :: t)

/-- `resample16kTo8k` (`src/unnamed/part_000` lines 352-363): average each
pair of samples; a trailing odd sample is dropped
(`outSamples = Math.floor(inSamples / 2)`). -/
def resample16kTo8k : List ℤ → List ℤ
  | a :: b :: t => toInt16 ((a + b).fdiv 2) :: resample16kTo8k t
  | _ => []

/-! ### Session state machine of `src/unnamed/part_000`

The per-connection `state` object (lines 435-443) plus the closure variables
of the WebSocket handler that the media path touches.  Collaborator calls
(`franc`, DeepSeek, Sarvam TTS, the Twilio websocket send loop, REST STT) are
oracle parameters; each awaited promise outcome is an `Except Unit`, so a
collaborator that throws/rejects is representable.  Observable interactions
are recorded as an `Effect` trace. -/

/-- The per-call `state` object (`src/unnamed/part_000` lines 435-443).
`pcmBufferParts` holds decoded PCM16 chunks, `pcmBytes` their total byte
count (2 bytes per sample).  Timestamps (`ignoreUntil`, `Date.now()`) are
integer milliseconds. -/
structure SessionState where
  callSid : Option String
  sampleRate : ℕ
  channels : ℕ
  pcmBufferParts : List (List ℤ)
  pcmBytes : ℕ
  inFlight : Bool
  ignoreUntil : ℤ
  deriving Repr, DecidableEq

/-- Result of the synthesizer as consumed by `handleFinalTranscript`:
the WAV header sample-rate field (`readUInt32LE(24)`, `none` when the read
throws and the 16000 fallback applies) and the byte length of the PCM data
after the located `data` chunk.  The byte-level WAV scan itself is not
claim-relevant and is abstracted into these two parsed fields. -/
structure TtsBuf where
  headerRate : Option ℕ
  pcmLen : ℕ
  deriving Repr, DecidableEq

/-- Observable interactions of the session with its collaborators. -/
inductive Effect where
  | pipelineInvoke (transcript sttLang : String)
  | sttForward (samples : List ℤ)
  | restSttRequest (samples : List ℤ)
  | skipPlayback
  | streamedTts
  | redirectFallback
  deriving Repr, DecidableEq

/-- Oracle for one connection: outcomes of every external call the media and
reply paths can make.  `Except.error` models a rejected promise. -/
structure TurnOracle where
  francFn : String → String
  deepseekCall : String → String → Except Unit String
  ttsCall : String → String → Except Unit (Option TtsBuf)
  streamCall : Except Unit Bool
  restStt : List ℤ → String × String

/-- The inline apology of `handleFinalTranscript`'s DeepSeek catch clause
(`src/unnamed/part_000` line 618). -/
def inlineApology (lang : String) : String :=
  if lang == "gu-IN" then "માફ કરશો, ફરી પૂછો."
  else if lang == "hi-IN" then "माफ करें, कृपया फिर पूछें।"
  else "Sorry, please ask again."

/-- The ignore-window length computed after successful playback
(`src/unnamed/part_000` lines 661-663):
`Math.ceil((pcmLen / (rate * 2)) * 1000 + 350)` milliseconds, as exact
integer ceiling arithmetic. -/
def ignoreMsOf (pcmLen rate : ℕ) : ℤ :=
  ((1000 * pcmLen + (2 * rate - 1)) / (2 * rate) : ℕ) + 350

/-- The two entry guards of `handleFinalTranscript`
(`src/unnamed/part_000` lines 603-611): drop the utterance inside the ignore
window or while a reply is in flight, otherwise raise `inFlight`.  Returns
the state after the synchronous prefix and whether the reply body runs. -/
def handleFinalEntry (st : SessionState) (now : ℤ) : SessionState × Bool :=
  if now < st.ignoreUntil then (st, false)
  else if st.inFlight then (st, false)
  else ({ st with inFlight := true }, true)

/-- The `try`/`catch`/`finally` body of `handleFinalTranscript`
(`src/unnamed/part_000` lines 612-684), entered with `inFlight = true`:
resolve the language, obtain the reply (the DeepSeek call is wrapped in its
own catch that substitutes `inlineApology`), synthesize, stream into the
call (setting `ignoreUntil` on success, attempting the Twilio redirect
fallback otherwise — the redirect is itself try/caught and leaves the state
unchanged either way), and in every case — including a rejected collaborator
promise reaching the outer catch — reset `inFlight` in the `finally`.
`tSet` is the value of `Date.now()` at the ignore-window computation. -/
def handleFinalBody (o : TurnOracle) (st : SessionState)
    (transcript sttLang : String) (tSet : ℤ) : SessionState × List Effect :=
  let lang := S.resolveFinalLang o.francFn sttLang transcript
  let aiReply := match o.deepseekCall transcript lang with
    | .ok r => r
    | .error _ => inlineApology lang
  match o.ttsCall aiReply lang with
  | .error _ => ({ st with inFlight := false }, [])
  | .ok none => ({ st with inFlight := false }, [.skipPlayback])
  | .ok (some buf) =>
    let rate := buf.headerRate.getD 16000
    match o.streamCall with
    | .error _ => ({ st with inFlight := false }, [])
    | .ok true =>
      ({ st with inFlight := false,
                 ignoreUntil := tSet + ignoreMsOf buf.pcmLen rate },
       [.streamedTts])
    | .ok false => ({ st with inFlight := false }, [.redirectFallback])

/-- `handleFinalTranscript` (`src/unnamed/part_000` lines 602-684) run to
completion with no interleaved events: guards, then the reply body. -/
def handleFinalTranscript (o : TurnOracle) (st : SessionState)
    (now tSet : ℤ) (transcript sttLang : String) : SessionState × List Effect :=
  let (st1, proceed) := handleFinalEntry st now
  if proceed then
    let (st2, effs) := handleFinalBody o st1 transcript sttLang tSet
    (st2, .pipelineInvoke transcript sttLang :: effs)
  else (st1, [])

/-- Two final utterances delivered in rapid succession: the second utterance
is dispatched while the first reply body is suspended at an `await`, so both
entry guards run before the first body resumes (Node's event loop runs the
second `handleFinalTranscript` call up to its first suspension point while
the first is awaiting a collaborator).  Returns the final state and the
number of reply-pipeline invocations. -/
def twoFinalUtterances (o : TurnOracle) (st : SessionState)
    (now1 now2 tSet : ℤ) (tr1 lg1 tr2 lg2 : String) : SessionState × ℕ :=
  let (st1, b1) := handleFinalEntry st now1
  let (st2, b2) := handleFinalEntry st1 now2
  let st3 := if b1 then (handleFinalBody o st2 tr1 lg1 tSet).1 else st2
  let _ := (tr2, lg2)
  (st3, (if b1 then 1 else 0) + (if b2 then 1 else 0))

/-- Closure state of one WebSocket connection beyond the session record:
whether the streaming recognizer reported open (`sttReady`), whether the
socket object exists (`sttSocket`), and the `pendingSendChunks` queue. -/
structure RtState where
  session : SessionState
  sttReady : Bool
  sttSocketPresent : Bool
  pendingSendChunks : List (List ℤ)
  deriving Repr, DecidableEq

/-- `sendToStt` (`src/unnamed/part_000` lines 455-481): with no socket the
packet is queued; with a socket the SDK `sendAudio` runs (`sendThrows`
models the catch branch, which re-queues the packet). -/
def sendToStt (rt : RtState) (sendThrows : Bool) (samples : List ℤ) :
    RtState × List Effect :=
  if !rt.sttSocketPresent then
    ({ rt with pendingSendChunks := rt.pendingSendChunks ++ [samples] }, [])
  else if sendThrows then
    ({ rt with pendingSendChunks := rt.pendingSendChunks ++ [samples] }, [])
  else (rt, [Effect.sttForward samples])

/-- `forwardFrameToSarvamOrBuffer` (`src/unnamed/part_000` lines 688-725):
decode the mu-law payload; if the streaming recognizer is ready, upsample to
16k and send; otherwise append to the session buffer and, when the chunk
target is reached with no reply in flight, flush the buffer through REST
STT and hand a non-empty transcript to `handleFinalTranscript`. -/
def forwardFrameToSarvamOrBuffer (o : TurnOracle) (chunkByteTarget : ℕ)
    (sendThrows : Bool) (rt : RtState) (now tSet : ℤ) (muLaw : List ℕ) :
    RtState × List Effect :=
  let pcmBuf8k := muLawToPcm16Buffer muLaw
  if rt.sttReady && rt.sttSocketPresent then
    sendToStt rt sendThrows (resample8kTo16k pcmBuf8k)
  else
    let st := rt.session
    let st := { st with pcmBufferParts := st.pcmBufferParts ++ [pcmBuf8k],
                        pcmBytes := st.pcmBytes + 2 * pcmBuf8k.length }
    if chunkByteTarget ≤ st.pcmBytes && !st.inFlight then
      let combined := st.pcmBufferParts.flatten
      let st := { st with pcmBufferParts := [], pcmBytes := 0 }
      let (transcript, langCode) := o.restStt combined
      if (jsTrim transcript.toList).length != 0 then
        let (st2, effs) := handleFinalTranscript o st now tSet transcript langCode
        ({ rt with session := st2 }, Effect.restSttRequest combined :: effs)
      else ({ rt with session := st }, [Effect.restSttRequest combined])
    else ({ rt with session := st }, [])

/-- The `media` branch of the Twilio WebSocket message handler
(`src/unnamed/part_000` lines 748-754): a frame arriving strictly before
`ignoreUntil` returns immediately; a frame without a payload returns
immediately; otherwise the payload is forwarded or buffered.
`chunkByteTarget` is `Math.ceil(CHUNK_SECONDS * sampleRate * 2)` (a
configuration value computed once from the environment). -/
def onMediaEvent (o : TurnOracle) (chunkByteTarget : ℕ) (sendThrows : Bool)
    (rt : RtState) (now tSet : ℤ) (payload : Option (List ℕ)) :
    RtState × List Effect :=
  if now < rt.session.ignoreUntil then (rt, [])
  else
    match payload with
    | none => (rt, [])
    | some b => forwardFrameToSarvamOrBuffer o chunkByteTarget sendThrows rt now tSet b

/-! ### Text generator (DeepSeek) adapters -/

/-- Outcome of one generator request as seen by the calling code: the API
key may be missing, the `fetch` may reject, the response may have a
non-success status, or it succeeds with the extracted
`choices[0].message.content` (possibly empty). -/
inductive GenOutcome where
  | missingKey
  | requestError
  | httpError (status : ℕ)
  | success (content : String)
  deriving Repr, DecidableEq

/-- Whether the outcome is a generator failure in the sense of the spec
(missing key, request error, non-success status, or empty output). -/
def isGenFailure : GenOutcome → Bool
  | .missingKey => true
  | .requestError => true
  | .httpError _ => true
  | .success c => c == ""

/-- Whether the outcome makes the generator call throw in `src/flow.js` and
reach the caller's catch, excluding the empty-output case. -/
def isGenHardFailure : GenOutcome → Bool
  | .missingKey => true
  | .requestError => true
  | .httpError _ => true
  | .success _ => false

/-- The duplicated-punctuation collapse `reply.replace(/([!?.,])\1+/g, "$1")`:
runs of the same character from the class `[!?.,]` collapse to one. -/
def isDupPunct (c : Char) : Bool := c == '!' || c == '?' || c == '.' || c == ','

/-- Tail of the punctuation collapse: `prev` is the last emitted character. -/
def dedupPunctGo (prev : Char) : List Char → List Char
  | [] => []
  | c :: t =>
    if c == prev && isDupPunct c then dedupPunctGo prev t
    else c :: dedupPunctGo c t

/-- The punctuation collapse over a whole character list. -/
def dedupPunct : List Char → List Char
  | [] => []
  | c :: t => c :: dedupPunctGo c t

/-- Output sanitization shared verbatim by `src/flow.js` `callDeepSeek`
(lines 216-224) and `src/unnamed/part_000` `callDeepSeek` (lines 197-203):
strip pictographic characters (the Unicode property classes
`Emoji_Presentation`/`Extended_Pictographic` are external table data,
passed in as the predicate `isEmoji`), strip surrogate code units (a no-op
on the codepoint model, kept for fidelity), collapse repeated punctuation,
truncate at 200 with an ellipsis, and trim. -/
def sanitizeReply (isEmoji : Char → Bool) (s : String) : String :=
  let l := s.toList.filter (fun c => !(isEmoji c))
  let l := l.filter (fun c => !(decide (0xD800 ≤ c.toNat) && decide (c.toNat ≤ 0xDFFF)))
  let l := dedupPunct l
  let l := if 200 < l.length then l.take 200 ++ "...".toList else l
  String.mk (jsTrim l)

/-- The per-language apology used by `src/flow.js` (both inside
`callDeepSeek`'s unreachable branches — there are none, it throws — and in
the `/recording` handler's catch, lines 306-308) and by
`src/unnamed/part_000` `callDeepSeek` (lines 177-179 and 206-208). -/
def perLangApology (langCode : String) : String :=
  if langCode == "gu-IN" then "માફ કરશો, કૃપા કરીને ફરી પૂછો."
  else if langCode == "hi-IN" then "माफ करें, कृपया फिर पूछें।"
  else "Sorry, please ask again."

namespace Flow

/-- `callDeepSeek` from `src/flow.js` lines 188-225: every failure mode
throws (missing key line 190, rejected fetch, non-success status line 211,
empty output line 214); a non-empty reply is sanitized and returned. -/
def callDeepSeek (isEmoji : Char → Bool) (o : GenOutcome)
    (userText langCode : String) : Except String String :=
  let _ := (userText, langCode)
  match o with
  | .missingKey => .error "DEEPSEEK_API_KEY missing in .env"
  | .requestError => .error "fetch rejected"
  | .httpError _ => .error "DeepSeek API error"
  | .success content =>
    if content == "" then .error "DeepSeek returned no text"
    else .ok (sanitizeReply isEmoji content)

/-- The reply actually used by the `/recording` handler of `src/flow.js`
(lines 302-309): the generator result, or on any thrown generator error the
fixed per-language apology.  The handler then always proceeds with this
string into TTS and TwiML generation, so the turn completes. -/
def recordingReply (isEmoji : Char → Bool) (o : GenOutcome)
    (transcript langCode : String) : String :=
  match callDeepSeek isEmoji o transcript langCode with
  | .ok r => r
  | .error _ => perLangApology langCode

end Flow

namespace S

/-- `callDeepSeek` from `src/unnamed/part_000` lines 174-210: the missing-key
prefix and the catch-all around the request return the per-language apology;
a success response returns the sanitized content — including the empty
string when the generator returned empty output. -/
def callDeepSeek (isEmoji : Char → Bool) (o : GenOutcome)
    (userText langCode : String) : String :=
  let _ := userText
  match o with
  | .missingKey => perLangApology langCode
  | .requestError => perLangApology langCode
  | .httpError _ => perLangApology langCode
  | .success content => sanitizeReply isEmoji content

end S

/-! ### Remaining definitions used by the statements and witnesses -/

/-- The canonical locale codes the spec names as the resolver's range. -/
def allowedLocales : List String :=
  ["gu-IN", "hi-IN", "en-IN", "bn-IN", "kn-IN", "ml-IN", "mr-IN", "od-IN",
   "pa-IN", "ta-IN", "te-IN"]

/-- Specification of the resampler round trip: every sample moves a quarter
of the way (floor division) towards its successor, and the last sample is
reproduced exactly. -/
def rtApprox : List ℤ → List ℤ
  | [] => []
  | [a] => [a]
  | a :: b :: t => (a + (b - a) / 4) :: rtApprox (b :: t)

/-- Concrete oracle for witnesses: every collaborator succeeds. -/
def exOracle : TurnOracle where
  francFn := fun _ => "und"
  deepseekCall := fun _ _ => .ok "hello"
  ttsCall := fun _ _ => .ok (some { headerRate := some 16000, pcmLen := 32000 })
  streamCall := .ok true
  restStt := fun _ => ("", "unknown")

/-- Concrete oracle for witnesses: synthesis rejects (throws). -/
def exOracleThrowing : TurnOracle where
  francFn := fun _ => "und"
  deepseekCall := fun _ _ => .error ()
  ttsCall := fun _ _ => .error ()
  streamCall := .error ()
  restStt := fun _ => ("", "unknown")

/-- Concrete idle session for witnesses. -/
def exSession : SessionState where
  callSid := none
  sampleRate := 8000
  channels := 1
  pcmBufferParts := []
  pcmBytes := 0
  inFlight := false
  ignoreUntil := 0

/-- Concrete session with a reply in flight. -/
def exSessionBusy : SessionState := { exSession with inFlight := true }

/-- Concrete connection state inside an ignore window (until t = 10). -/
def exRt : RtState where
  session := { exSession with ignoreUntil := 10 }
  sttReady := true
  sttSocketPresent := true
  pendingSendChunks := []

/-! ## Theorems -/

/-!
Claim C9 first (it is a pure equality between two embedded copies and is
used nowhere else).
-/

/-- Helper: the two transcriptions of the resolution pipeline are
definitionally equal. -/
theorem flow_s_resolver_eq (francFn : String → String) (tag t : String) :
    Flow.resolveFinalLang francFn tag t = S.resolveFinalLang francFn tag t := rfl

/-- Claim C9: the duplicated pure language-resolution pipelines in
`src/flow.js` and `src/unnamed/part_000` (`normalizeLangCode`,
`detectLanguageLocal`, the romanized-cue regexes, `resolveFinalLang`) are
extensionally equal: for every recognizer tag, every transcript, and every
behaviour of the shared `franc` collaborator, both files'
`resolveFinalLang` return the same locale code. -/
theorem c9_resolver_equivalence :
    ∀ (francFn : String → String) (tag t : String),
      Flow.resolveFinalLang francFn tag t = S.resolveFinalLang francFn tag t :=
  fun francFn tag t => flow_s_resolver_eq francFn tag t

/-- Claim C2: a media frame arriving strictly before the session's
`ignoreUntil` timestamp is dropped by the media branch of the WebSocket
handler: it is not forwarded to the recognizer, not appended to the
session's audio buffer, and the connection state is unchanged (no effects
are produced at all). -/
theorem c2_ignore_window_drops_frame (o : TurnOracle) (chunkByteTarget : ℕ)
    (sendThrows : Bool) (rt : RtState) (now tSet : ℤ) (payload : Option (List ℕ))
    (h : now < rt.session.ignoreUntil) :
    onMediaEvent o chunkByteTarget sendThrows rt now tSet payload = (rt, []) := by
  unfold onMediaEvent
  simp [h]

/-- Witness for C2 at a concrete frame arriving at t = 3 inside an ignore
window lasting until t = 10. -/
theorem c2_ignore_window_drops_frame_witness :
    (3 : ℤ) < exRt.session.ignoreUntil ∧
      onMediaEvent exOracle 14400 false exRt 3 3 (some [0x7f, 0x00]) = (exRt, []) :=
  ⟨by decide, c2_ignore_window_drops_frame exOracle 14400 false exRt 3 3
    (some [0x7f, 0x00]) (by decide)⟩

/-- Claim C1: while a session's `inFlight` flag is true, any further final
utterance is discarded without invoking the reply pipeline (first
conjunct); and delivering two final utterances in rapid succession — the
second arriving while the first reply is still in flight — to a session that
is idle and outside its ignore window produces exactly one reply-pipeline
invocation (second conjunct). -/
theorem c1_reply_mutual_exclusion (o : TurnOracle) (st stBusy : SessionState)
    (now1 now2 nowB tSet : ℤ) (tr1 lg1 tr2 lg2 trB lgB : String)
    (hBusy : stBusy.inFlight = true)
    (hIdle : st.inFlight = false) (hWin : st.ignoreUntil ≤ now1) :
    handleFinalTranscript o stBusy nowB tSet trB lgB = (stBusy, []) ∧
      (twoFinalUtterances o st now1 now2 tSet tr1 lg1 tr2 lg2).2 = 1 := by
  constructor
  · unfold handleFinalTranscript handleFinalEntry
    split_ifs <;> simp_all
  · unfold twoFinalUtterances handleFinalEntry
    have h1 : ¬ now1 < st.ignoreUntil := not_lt.mpr hWin
    simp only [h1, if_false, hIdle, Bool.false_eq_true, if_neg, ite_false, ite_true]
    split_ifs <;> simp_all

/-- Witness for C1: a busy session at t = 5 drops the utterance, and an idle
session receiving two utterances at t = 0 and t = 1 invokes the pipeline
exactly once. -/
theorem c1_reply_mutual_exclusion_witness :
    exSessionBusy.inFlight = true ∧ exSession.inFlight = false ∧
      exSession.ignoreUntil ≤ 0 ∧
      (handleFinalTranscript exOracle exSessionBusy 5 5 "hello" "en" =
        (exSessionBusy, []) ∧
       (twoFinalUtterances exOracle exSession 0 1 2 "hello" "en" "again" "en").2 = 1) :=
  ⟨rfl, rfl, by decide,
    c1_reply_mutual_exclusion exOracle exSession exSessionBusy 0 1 5 2
      "hello" "en" "again" "en" "hello" "en" rfl rfl (by decide)⟩

/-- Claim C10: every terminating execution of `handleFinalTranscript` that
passes the entry guards (outside the ignore window, no reply in flight)
resets `inFlight` to `false` on exit, for every collaborator behaviour —
including rejected (throwing) generation, synthesis and playback promises,
which reach the outer catch and the `finally` clause. -/
theorem c10_inflight_reset (o : TurnOracle) (st : SessionState)
    (now tSet : ℤ) (transcript sttLang : String)
    (hIdle : st.inFlight = false) (hWin : st.ignoreUntil ≤ now) :
    (handleFinalTranscript o st now tSet transcript sttLang).1.inFlight = false := by
  unfold handleFinalTranscript handleFinalEntry handleFinalBody
  have h1 : ¬ now < st.ignoreUntil := not_lt.mpr hWin
  simp only [h1, if_false, hIdle, ite_false, ite_true, Bool.false_eq_true]
  split <;> (try split) <;> simp

/-- Witness for C10 with an oracle whose synthesis call rejects. -/
theorem c10_inflight_reset_witness :
    exSession.inFlight = false ∧ exSession.ignoreUntil ≤ 7 ∧
      (handleFinalTranscript exOracleThrowing exSession 7 8 "hello" "en").1.inFlight
        = false :=
  ⟨rfl, by decide, c10_inflight_reset exOracleThrowing exSession 7 8 "hello" "en"
    rfl (by decide)⟩

/-- Counterexample to Claim C3 as stated: for the `src/final4.js` resolver at
lock strictness 2 with the initial confirmed language `"en-IN"`, the tag
`"unknown"` together with the Devanagari-only transcript `"नमस्ते"` resolves
to `"en-IN"`, not to the Hindi locale — the lock retains the previous
confirmed language because the freshly resolved `"hi-IN"` differs from the
normalized raw tag. -/
theorem c3_script_precedence_counterexample :
    Final4.resolveFinalLang 2 "en-IN" (fun _ => "und") "unknown" "नमस्ते" = "en-IN" ∧
      ("en-IN" : String) ≠ "hi-IN" := by
  constructor
  · decide
  · decide

/-- Claim C3, amended: script precedence holds unconditionally for the
`src/flow.js` resolver (Gujarati tested first, so Gujarati wins on mixed
scripts), and for the `src/final4.js` resolver whenever the lock strictness
is 0 or 1 (the default; there Devanagari is assigned last, so Devanagari
wins on mixed scripts).  At strictness 2 and above the lock can override
script precedence, as the counterexample shows. -/
theorem c3_script_precedence_amended (francFn : String → String)
    (tag t lastConfirmed : String) (strict : ℤ)
    (hstrict : strict = 0 ∨ strict = 1) :
    (containsCodeInRange 0xA80 0xAFF t = true →
      Flow.resolveFinalLang francFn tag t = "gu-IN") ∧
    (containsCodeInRange 0x900 0x97F t = true →
      containsCodeInRange 0xA80 0xAFF t = false →
      Flow.resolveFinalLang francFn tag t = "hi-IN") ∧
    (containsCodeInRange 0x900 0x97F t = true →
      Final4.resolveFinalLang strict lastConfirmed francFn tag t = "hi-IN") ∧
    (containsCodeInRange 0xA80 0xAFF t = true →
      containsCodeInRange 0x900 0x97F t = false →
      Final4.resolveFinalLang strict lastConfirmed francFn tag t = "gu-IN") := by
  refine ⟨?_, ?_, ?_, ?_⟩
  · intro hgu
    unfold Flow.resolveFinalLang
    simp [hgu]
  · intro hhi hgu
    unfold Flow.resolveFinalLang
    simp [hgu, hhi]
  · intro hhi
    unfold Final4.resolveFinalLang Final4.freshLang
    rcases hstrict with h | h <;> subst h <;> simp [hhi]
  · intro hgu hhi
    unfold Final4.resolveFinalLang Final4.freshLang
    rcases hstrict with h | h <;> subst h <;> simp [hgu, hhi]

/-- Witness for the amended C3 at strictness 1 with a Devanagari transcript
and a Gujarati transcript. -/
theorem c3_script_precedence_amended_witness :
    ((1 : ℤ) = 0 ∨ (1 : ℤ) = 1) ∧
      (containsCodeInRange 0x900 0x97F "नमस्ते" = true →
        Final4.resolveFinalLang 1 "en-IN" (fun _ => "und") "unknown" "नमस्ते"
          = "hi-IN") ∧
      (containsCodeInRange 0xA80 0xAFF "નમસ્તે" = true →
        containsCodeInRange 0x900 0x97F "નમસ્તે" = false →
        Final4.resolveFinalLang 1 "en-IN" (fun _ => "und") "unknown" "નમસ્તે"
          = "gu-IN") :=
  ⟨Or.inr rfl,
    (c3_script_precedence_amended (fun _ => "und") "unknown" "नमस्ते" "en-IN" 1
      (Or.inr rfl)).2.2.1,
    fun h1 h2 => (c3_script_precedence_amended (fun _ => "und") "unknown"
      "નમસ્તે" "en-IN" 1 (Or.inr rfl)).2.2.2 h1 h2⟩

/-- Claim C4: at lock strictness 0 the `src/final4.js` resolver replaces
`lastConfirmedLang` with the freshly resolved language unconditionally (and
returns it); at strictness 2 or higher it does so exactly when the fresh
language equals the normalized raw recognizer tag, and otherwise retains
and returns the previous confirmed language. -/
theorem c4_lock_strictness_policy (s : ℤ) (hs : 2 ≤ s)
    (lastConfirmed tag t : String) (francFn : String → String) :
    Final4.resolveFinalLang 0 lastConfirmed francFn tag t
        = Final4.freshLang francFn tag t ∧
    (Final4.freshLang francFn tag t = Final4.normalizeLangCode tag →
      Final4.resolveFinalLang s lastConfirmed francFn tag t
        = Final4.freshLang francFn tag t) ∧
    (Final4.freshLang francFn tag t ≠ Final4.normalizeLangCode tag →
      Final4.resolveFinalLang s lastConfirmed francFn tag t = lastConfirmed) := by
  have hs0 : (s == 0) = false := by simp; omega
  have hs1 : (s == 1) = false := by simp; omega
  refine ⟨?_, ?_, ?_⟩
  · unfold Final4.resolveFinalLang
    simp
  · intro h
    unfold Final4.resolveFinalLang
    simp [hs0, hs1, hs, h]
  · intro h
    unfold Final4.resolveFinalLang
    simp [hs0, hs1, hs, h]

/-- Witness for C4 at strictness 2: tag `"hi"` with a plain transcript gives
fresh language `"hi-IN"` equal to the normalized tag, so the confirmed
language updates. -/
theorem c4_lock_strictness_policy_witness :
    (2 : ℤ) ≤ 2 ∧
      Final4.freshLang (fun _ => "und") "hi" "sab theek hai na" =
        Final4.normalizeLangCode "hi" ∧
      Final4.resolveFinalLang 2 "en-IN" (fun _ => "und") "hi" "sab theek hai na"
        = Final4.freshLang (fun _ => "und") "hi" "sab theek hai na" :=
  ⟨le_refl 2, by decide,
    (c4_lock_strictness_policy 2 (le_refl 2) "en-IN" "hi" "sab theek hai na"
      (fun _ => "und")).2.1 (by decide)⟩

/-- Counterexample to Claim C5 as stated: `normalizeLangCode` passes an
unrecognized non-empty tag through verbatim, so the resolver can return a
string outside the fixed locale set — tag `"fr-FR"` with a Latin transcript
resolves to `"fr-FR"` in both copies of the resolver. -/
theorem c5_output_set_counterexample :
    Flow.resolveFinalLang (fun _ => "und") "fr-FR" "bonjour mes amis" = "fr-FR" ∧
      S.resolveFinalLang (fun _ => "und") "fr-FR" "bonjour mes amis" = "fr-FR" ∧
      "fr-FR" ∉ allowedLocales := by
  refine ⟨by decide, by decide, by decide⟩

/-- Claim C5, amended: whenever the recognizer tag normalizes to `"unknown"`
or to one of the canonical locale codes (i.e., for empty/unknown tags and
tags starting with a known language prefix), the resolver's output is one of
the eleven canonical locale codes and in particular is never the empty
string and never `"unknown"`; a non-empty tag that normalizes to anything
else is returned verbatim (the counterexample). -/
theorem c5_output_set_amended (francFn : String → String) (tag t : String)
    (h : Flow.normalizeLangCode tag ∈ allowedLocales ∨
         Flow.normalizeLangCode tag = "unknown") :
    Flow.resolveFinalLang francFn tag t ∈ allowedLocales ∧
      Flow.resolveFinalLang francFn tag t ≠ "" ∧
      Flow.resolveFinalLang francFn tag t ≠ "unknown" := by
  have hmem : Flow.resolveFinalLang francFn tag t ∈ allowedLocales := by
    have hdet : ∀ t2, Flow.detectLanguageLocal francFn t2 ∈ allowedLocales := by
      intro t2
      dsimp only [Flow.detectLanguageLocal]
      split_ifs <;> decide
    dsimp only [Flow.resolveFinalLang]
    split_ifs <;>
      first
        | decide
        | exact hdet t
        | (rcases h with hh | hh
           · exact hh
           · exfalso; simp_all)
  refine ⟨hmem, ?_, ?_⟩
  · have : ∀ st ∈ allowedLocales, st ≠ "" := by decide
    exact this _ hmem
  · have : ∀ st ∈ allowedLocales, st ≠ "unknown" := by decide
    exact this _ hmem

/-- Witness for the amended C5 with the unknown tag and a long Latin
transcript (exercising the local-detection fallback). -/
theorem c5_output_set_amended_witness :
    (Flow.normalizeLangCode "unknown" ∈ allowedLocales ∨
      Flow.normalizeLangCode "unknown" = "unknown") ∧
      (Flow.resolveFinalLang (fun _ => "und") "unknown" "hello there my friend"
          ∈ allowedLocales ∧
        Flow.resolveFinalLang (fun _ => "und") "unknown" "hello there my friend"
          ≠ "" ∧
        Flow.resolveFinalLang (fun _ => "und") "unknown" "hello there my friend"
          ≠ "unknown") :=
  ⟨Or.inr (by decide),
    c5_output_set_amended (fun _ => "und") "unknown" "hello there my friend"
      (Or.inr (by decide))⟩

/-- Counterexample to Claim C6 as stated: in `src/unnamed/part_000`,
`callDeepSeek` on a successful HTTP response whose extracted content is
empty returns the empty string — not the per-language apology — and the turn
proceeds with `""` as the reply text. -/
theorem c6_generator_fallback_counterexample :
    S.callDeepSeek (fun _ => false) (.success "") "hello" "hi-IN" = "" ∧
      ("" : String) ≠ perLangApology "hi-IN" := by
  refine ⟨by decide, by decide⟩

/-- Claim C6, amended: in the `src/flow.js` pipeline every generator failure
(missing key, request error, non-success HTTP status, or empty output)
makes the `/recording` handler substitute the fixed per-language apology
(Gujarati or Hindi, with an English fallback) and the turn completes with
that apology as the reply; in `src/unnamed/part_000`, the same holds for
missing key, request errors and non-success statuses, while empty generator
output instead yields the empty string (the counterexample). -/
theorem c6_generator_fallback_amended (isEmoji : Char → Bool) (o : GenOutcome)
    (transcript langCode : String) (h : isGenFailure o = true) :
    Flow.recordingReply isEmoji o transcript langCode = perLangApology langCode ∧
      (isGenHardFailure o = true →
        S.callDeepSeek isEmoji o transcript langCode = perLangApology langCode) := by
  cases o with
  | missingKey => exact ⟨rfl, fun _ => rfl⟩
  | requestError => exact ⟨rfl, fun _ => rfl⟩
  | httpError status => exact ⟨rfl, fun _ => rfl⟩
  | success content =>
    have hc : content = "" := by
      simpa [isGenFailure] using h
    subst hc
    refine ⟨rfl, ?_⟩
    intro hhard
    simp [isGenHardFailure] at hhard

/-- Witness for the amended C6 at a non-success HTTP status with the Hindi
locale. -/
theorem c6_generator_fallback_amended_witness :
    isGenFailure (.httpError 500) = true ∧
      (Flow.recordingReply (fun _ => false) (.httpError 500) "hello" "hi-IN"
          = perLangApology "hi-IN" ∧
        (isGenHardFailure (.httpError 500) = true →
          S.callDeepSeek (fun _ => false) (.httpError 500) "hello" "hi-IN"
            = perLangApology "hi-IN")) :=
  ⟨rfl, c6_generator_fallback_amended (fun _ => false) (.httpError 500)
    "hello" "hi-IN" rfl⟩

/-! ### Claim C8: resampler round trip -/

/-- `Math.floor(x / 2)` on integers is Euclidean division by 2. -/
theorem int_fdiv_two (a : ℤ) : a.fdiv 2 = a / 2 :=
  Int.fdiv_eq_ediv a (by norm_num)

/-- `toInt16` is the identity on the 16-bit signed range. -/
theorem toInt16_eq_self {x : ℤ} (h1 : -32768 ≤ x) (h2 : x ≤ 32767) :
    toInt16 x = x := by
  unfold toInt16
  omega

/-- One round-trip step: averaging a sample with the interpolated midpoint
moves it a quarter of the way (floor) towards its successor. -/
theorem roundtrip_step (a b : ℤ) (ha1 : -32768 ≤ a) (ha2 : a ≤ 32767)
    (hb1 : -32768 ≤ b) (hb2 : b ≤ 32767) :
    toInt16 ((a + toInt16 ((a + b).fdiv 2)).fdiv 2) = a + (b - a) / 4 := by
  simp only [int_fdiv_two]
  have hmid : toInt16 ((a + b) / 2) = (a + b) / 2 :=
    toInt16_eq_self (by omega) (by omega)
  rw [hmid]
  rw [toInt16_eq_self (by omega) (by omega)]
  omega

/-- The resampler round trip computes `rtApprox` on in-range input. -/
theorem roundtrip_eq_rtApprox :
    ∀ (l : List ℤ), (∀ x ∈ l, -32768 ≤ x ∧ x ≤ 32767) →
      resample16kTo8k (resample8kTo16k l) = rtApprox l
  | [], _ => rfl
  | [a], h => by
    have ha := h a (by simp)
    simp only [resample8kTo16k, resample16kTo8k, rtApprox]
    rw [int_fdiv_two]
    have haa : (a + a) / 2 = a := by omega
    rw [haa, toInt16_eq_self ha.1 ha.2]
  | a :: b :: t, h => by
    have ha := h a (by simp)
    have hb := h b (by simp)
    have ih := roundtrip_eq_rtApprox (b :: t) (fun x hx => h x (by simp [hx]))
    simp only [resample8kTo16k, resample16kTo8k, rtApprox]
    rw [roundtrip_step a b ha.1 ha.2 hb.1 hb.2]
    exact congrArg _ ih

/-- `rtApprox` preserves the sample count. -/
theorem rtApprox_length : ∀ (l : List ℤ), (rtApprox l).length = l.length
  | [] => rfl
  | [_] => rfl
  | _ :: b :: t => by
    simp only [rtApprox, List.length_cons]
    exact congrArg (· + 1) (rtApprox_length (b :: t))

/-- Pointwise error bound of `rtApprox` on in-range input. -/
theorem rtApprox_getD :
    ∀ (l : List ℤ), (∀ x ∈ l, -32768 ≤ x ∧ x ≤ 32767) →
      ∀ i, i < l.length → |(rtApprox l).getD i 0 - l.getD i 0| ≤ 16384
  | [], _, i, hi => by simp at hi
  | [a], _, i, hi => by
    have hz : i = 0 := by
      simp only [List.length_singleton] at hi
      omega
    subst hz
    simp [rtApprox]
  | a :: b :: t, h, 0, _ => by
    have ha := h a (by simp)
    have hb := h b (by simp)
    simp only [rtApprox, List.getD_cons_zero]
    rw [abs_le]
    constructor <;> omega
  | a :: b :: t, h, i + 1, hi => by
    simp only [rtApprox, List.getD_cons_succ]
    exact rtApprox_getD (b :: t) (fun x hx => h x (by simp [hx])) i
      (by simpa using hi)

/-- Claim C8: for every nonzero-length PCM16 buffer,
`resample16kTo8k (resample8kTo16k b)` has exactly the same sample count as
`b`, and each output sample is within 16384 of the corresponding input
sample (each sample moves floor-a-quarter of the way towards its successor,
so the error is bounded by a quarter of the full 16-bit range). -/
theorem c8_resample_roundtrip (l : List ℤ) (_hne : l ≠ [])
    (hrange : ∀ x ∈ l, -32768 ≤ x ∧ x ≤ 32767) :
    (resample16kTo8k (resample8kTo16k l)).length = l.length ∧
      ∀ i, i < l.length →
        |(resample16kTo8k (resample8kTo16k l)).getD i 0 - l.getD i 0| ≤ 16384 := by
  rw [roundtrip_eq_rtApprox l hrange]
  exact ⟨rtApprox_length l, rtApprox_getD l hrange⟩

/-- Witness for C8 on the two-sample buffer `[0, 1000]`. -/
theorem c8_resample_roundtrip_witness :
    ([0, 1000] : List ℤ) ≠ [] ∧
      (∀ x ∈ ([0, 1000] : List ℤ), -32768 ≤ x ∧ x ≤ 32767) ∧
      ((resample16kTo8k (resample8kTo16k [0, 1000])).length = 2 ∧
        ∀ i, i < ([0, 1000] : List ℤ).length →
          |(resample16kTo8k (resample8kTo16k [0, 1000])).getD i 0 -
            ([0, 1000] : List ℤ).getD i 0| ≤ 16384) :=
  ⟨by decide, by decide,
    c8_resample_roundtrip [0, 1000] (by decide) (by decide)⟩

end AiAssist
